import Mathlib

/-!
Verification development for `OpenGL/src/Application.cpp`.

Shallow embedding of the shader-source parser (`ParseShader`), the error
reporter (`GLClearError`, `GLLogCall`, the `GLCall` wrapper), the shader
compiler/linker (`CompileShader`, `CreateShader`) and the fixed quad with its
draw call.  Text is `List Char`; the graphics driver is an abstract record of
responses, which also supplies the bytes found in memory the program has not
initialised.
-/

namespace OpenGLApp

/-! ## Shader source parser -/

/-- Embedding of `haystack.find(needle) != std::string::npos`: the needle
occurs at some position of the haystack. -/
def find : List Char → List Char → Bool
  | [], needle => needle.isEmpty
  | c :: cs, needle => needle.isPrefixOf (c :: cs) || find cs needle

/-- Lines produced by the successive successful calls of
`getline(stream, line)` on a stream holding the given characters; `cur` is
the part of the current line already extracted.  A line ends at `'\n'`
(which is discarded); at end of input a non-empty unfinished line is still
delivered, an empty one makes `getline` fail and so ends the loop. -/
def getlines : List Char → List Char → List (List Char)
  | cur, [] => if cur.isEmpty then [] else [cur]
  | cur, c :: cs => if c = '\n' then cur :: getlines [] cs else getlines (cur ++ [c]) cs

/-- The local `enum class ShaderType`. -/
inductive ShaderType
  | NONE
  | VERTEX
  | FRAGMENT
deriving DecidableEq, Repr

/-- The cast `(int)type`: `NONE = -1`, `VERTEX = 0`, `FRAGMENT = 1`. -/
def ShaderType.toInt : ShaderType → Int
  | .NONE => -1
  | .VERTEX => 0
  | .FRAGMENT => 1

/-- The `struct ShaderProgramSource`. -/
structure ShaderProgramSource where
  VertexSource : List Char
  FragmentSource : List Char
deriving DecidableEq, Repr

/-- Outcome of running `ParseShader`: the subscripts at which the array
`ss[2]` was indexed (in program order, up to and including the first
out-of-range one), and the returned value, which is `none` when an
out-of-range subscript made the behaviour undefined. -/
structure ParseRun where
  subscripts : List Int
  result : Option ShaderProgramSource
deriving DecidableEq, Repr

/-- The marker `"#shader"`. -/
def shaderMarker : List Char := ['#', 's', 'h', 'a', 'd', 'e', 'r']

/-- The keyword `"vertex"`. -/
def vertexKeyword : List Char := ['v', 'e', 'r', 't', 'e', 'x']

/-- The keyword `"fragment"`. -/
def fragmentKeyword : List Char := ['f', 'r', 'a', 'g', 'm', 'e', 'n', 't']

/-- The directive line `#shader vertex`. -/
def vertexDirective : List Char := "#shader vertex".toList

/-- The directive line `#shader fragment`. -/
def fragmentDirective : List Char := "#shader fragment".toList

/-- The line `#shader fraghment`, spelt as in the specification's testable property. -/
def fraghmentDirective : List Char := "#shader fraghment".toList

/-- The `while (getline(stream, line))` loop of `ParseShader`, over the lines
still to be read; `type` is the current section and `ss0`, `ss1` are the
contents of `ss[0]` and `ss[1]`. -/
def parseLoop (type : ShaderType) (ss0 ss1 : List Char) : List (List Char) → ParseRun
  | [] => ⟨[], some ⟨ss0, ss1⟩⟩
  | line :: rest =>
    if find line shaderMarker then
      if find line vertexKeyword then parseLoop .VERTEX ss0 ss1 rest
      else if find line fragmentKeyword then parseLoop .FRAGMENT ss0 ss1 rest
      else parseLoop type ss0 ss1 rest
    else
      if type.toInt = 0 then
        let r := parseLoop type (ss0 ++ line ++ ['\n']) ss1 rest
        ⟨type.toInt :: r.subscripts, r.result⟩
      else if type.toInt = 1 then
        let r := parseLoop type ss0 (ss1 ++ line ++ ['\n']) rest
        ⟨type.toInt :: r.subscripts, r.result⟩
      else ⟨[type.toInt], none⟩

/-- Embedding of `ParseShader`, as a function of the characters the file stream
delivers (a file that cannot be opened delivers none). -/
def ParseShader (content : List Char) : ParseRun :=
  parseLoop .NONE [] [] (getlines [] content)

/-- The text of a list of lines, each followed by `'\n'`. -/
def unlines (ls : List (List Char)) : List Char :=
  (ls.map (fun l => l ++ ['\n'])).flatten

/-! ## Graphics API: constants, commands, driver and context

The enumerants are those of the OpenGL headers included by `Application.cpp`
(`GL/glew.h`); they are not part of the repository. -/

/-- `GL_NO_ERROR`. -/
def GL_NO_ERROR : Nat := 0

/-- `GL_INVALID_ENUM`. -/
def GL_INVALID_ENUM : Nat := 0x0500

/-- `GL_INVALID_VALUE`. -/
def GL_INVALID_VALUE : Nat := 0x0501

/-- `GL_FALSE`. -/
def GL_FALSE : Int := 0

/-- `GL_TRUE`. -/
def GL_TRUE : Int := 1

/-- `GL_TRIANGLES`. -/
def GL_TRIANGLES : Nat := 0x0004

/-- `GL_UNSIGNED_BYTE`. -/
def GL_UNSIGNED_BYTE : Nat := 0x1401

/-- `GL_UNSIGNED_SHORT`. -/
def GL_UNSIGNED_SHORT : Nat := 0x1403

/-- `GL_INT`. -/
def GL_INT : Nat := 0x1404

/-- `GL_UNSIGNED_INT`. -/
def GL_UNSIGNED_INT : Nat := 0x1405

/-- `GL_FRAGMENT_SHADER`. -/
def GL_FRAGMENT_SHADER : Nat := 0x8B30

/-- `GL_VERTEX_SHADER`. -/
def GL_VERTEX_SHADER : Nat := 0x8B31

/-- `GL_COMPILE_STATUS`. -/
def GL_COMPILE_STATUS : Nat := 0x8B81

/-- `GL_INFO_LOG_LENGTH`. -/
def GL_INFO_LOG_LENGTH : Nat := 0x8B84

/-- `GL_COLOR_BUFFER_BIT`. -/
def GL_COLOR_BUFFER_BIT : Nat := 0x4000

/-- The graphics-API calls that the program wraps in `GLCall`, with the values of the
arguments that are not pointers to client memory. -/
inductive GLCmd
  | glCreateShader (type : Nat)
  | glShaderSource (id : Nat) (source : List Char)
  | glCompileShader (id : Nat)
  | glGetShaderiv (id : Nat) (pname : Nat)
  | glGetShaderInfoLog (id : Nat) (bufSize : Int)
  | glDeleteShader (id : Nat)
  | glCreateProgram
  | glAttachShader (program : Nat) (shader : Nat)
  | glLinkProgram (program : Nat)
  | glValidateProgram (program : Nat)
  | glClear (mask : Nat)
  | glDrawElements (mode : Nat) (count : Int) (type : Nat) (indices : Nat)
deriving DecidableEq, Repr

/-- An abstract graphics driver: for a call and the history of the calls made before it,
the error codes the call raises, the value it returns (`glCreateShader`,
`glCreateProgram`), the integer it stores through its out-pointer (`glGetShaderiv`) and
the info log it holds when `glGetShaderInfoLog` is called.  The last field belongs to
the machine rather than to the driver: the bytes that lie in memory from the address
returned by `alloca` onwards before the program has written there. -/
structure Driver where
  raises : List GLCmd → GLCmd → List Nat
  retUInt : List GLCmd → GLCmd → Nat
  outInt : List GLCmd → GLCmd → Int
  outText : List GLCmd → GLCmd → List Char
  scratch : List GLCmd → List Char

/-- The state the program observes: the queue of pending error codes of the graphics
context, the calls made so far, and what has been written to `std::cout`. -/
structure GLContext where
  pending : List Nat
  calls : List GLCmd
  cout : List Char
deriving DecidableEq, Repr

/-- `glGetError()`: pops one pending code, or returns `GL_NO_ERROR` when none is
pending. -/
def glGetError (c : GLContext) : Nat × GLContext :=
  match c.pending with
  | [] => (GL_NO_ERROR, c)
  | e :: q => (e, { c with pending := q })

/-- The loop `while (glGetError() != GL_NO_ERROR);` on the queue of pending codes. -/
def clearLoop : List Nat → List Nat
  | [] => []
  | e :: q => if e ≠ GL_NO_ERROR then clearLoop q else q

/-- Embedding of `GLClearError`. -/
def GLClearError (c : GLContext) : GLContext :=
  { c with pending := clearLoop c.pending }

/-- The line written by `GLLogCall`:
`"[OpenGL Error] (" << error << "): " << function << " " << file << ":" << line << std::endl`. -/
def logEntry (error : Nat) (function file : List Char) (line : Nat) : List Char :=
  "[OpenGL Error] (".toList ++ Nat.toDigits 10 error ++ "): ".toList ++ function
    ++ " ".toList ++ file ++ ":".toList ++ Nat.toDigits 10 line ++ ['\n']

/-- Embedding of `GLLogCall`: the body of its `while` loop returns `false` in the first
iteration, so one call of `glGetError` is made; a nonzero code is logged and `false` is
returned, otherwise `true`. -/
def GLLogCall (function file : List Char) (line : Nat) (c : GLContext) : Bool × GLContext :=
  let r := glGetError c
  if r.1 ≠ 0 then
    (false, { r.2 with cout := r.2.cout ++ logEntry r.1 function file line })
  else
    (true, r.2)

/-- Performing the call `x` on driver `d`: the call is recorded and the codes it raises
are queued. -/
def issue (d : Driver) (x : GLCmd) (c : GLContext) : GLContext :=
  { c with calls := c.calls ++ [x], pending := c.pending ++ d.raises c.calls x }

/-- Embedding of the macro `GLCall(x)`:
`GLClearError(); x; ASSERT(GLLogCall(#x, __FILE__, __LINE__))`.  `text` is `#x`.  The
result is `.error` with the context at the trap when `ASSERT` reaches `__debugbreak()`. -/
def GLCall (d : Driver) (x : GLCmd) (text file : List Char) (line : Nat) (c : GLContext) :
    Except GLContext GLContext :=
  let r := GLLogCall text file line (issue d x (GLClearError c))
  if r.1 then .ok r.2 else .error r.2

/-- The operand `(type == GL_VERTEX_SHADER ? "vertex" : "fragment")`. -/
def stageName (type : Nat) : List Char :=
  if type = GL_VERTEX_SHADER then "vertex".toList else "fragment".toList

/-- The character that terminates a C string. -/
def NUL : Char := Char.ofNat 0

/-- Memory from the address `message` onwards after
`glGetShaderInfoLog(id, bufSize, &length, message)`, where `log` is the info log the
driver holds and `memory` the bytes that were there before.  For a positive `bufSize`
the call stores as much of the log as fits in `bufSize - 1` characters, followed by the
terminator; otherwise it stores nothing. -/
def storeInfoLog (log : List Char) (bufSize : Int) (memory : List Char) : List Char :=
  if 0 < bufSize then
    log.take (bufSize.toNat - 1) ++ NUL :: memory.drop ((log.take (bufSize.toNat - 1)).length + 1)
  else memory

/-- What `std::cout << message` writes for a `char*`: the bytes from the address up to
the first terminator. -/
def cString (memory : List Char) : List Char :=
  memory.takeWhile (fun ch => ch ≠ NUL)

/-- Embedding of `CompileShader`; `file` is `__FILE__`.  `message` is the memory at the
pointer returned by `alloca(length * sizeof(char))`: the bytes `d.scratch` finds there,
overwritten by `glGetShaderInfoLog` within the `length` bytes of the block.  When
`length` is not positive nothing is stored, and the bytes printed are those that were in
memory before (the C++ program reads memory it has not initialised). -/
def CompileShader (d : Driver) (file : List Char) (type : Nat) (source : List Char)
    (c : GLContext) : Except GLContext (Nat × GLContext) := do
  let id := d.retUInt c.calls (.glCreateShader type)
  let c ← GLCall d (.glCreateShader type) "unsigned int id = glCreateShader(type)".toList file 63 c
  let c ← GLCall d (.glShaderSource id source) "glShaderSource(id, 1, &src, nullptr)".toList
    file 65 c
  let c ← GLCall d (.glCompileShader id) "glCompileShader(id)".toList file 66 c
  let result := d.outInt c.calls (.glGetShaderiv id GL_COMPILE_STATUS)
  let c ← GLCall d (.glGetShaderiv id GL_COMPILE_STATUS)
    "glGetShaderiv(id, GL_COMPILE_STATUS, &result)".toList file 70 c
  if result = GL_FALSE then
    let length := d.outInt c.calls (.glGetShaderiv id GL_INFO_LOG_LENGTH)
    let c ← GLCall d (.glGetShaderiv id GL_INFO_LOG_LENGTH)
      "glGetShaderiv(id, GL_INFO_LOG_LENGTH, &length)".toList file 73 c
    let message := storeInfoLog (d.outText c.calls (.glGetShaderInfoLog id length)) length
      (d.scratch c.calls)
    let c ← GLCall d (.glGetShaderInfoLog id length)
      "glGetShaderInfoLog(id, length, &length, message)".toList file 76 c
    let c := { c with cout := c.cout ++ "Failed to compile ".toList ++ stageName type
      ++ " shader!".toList ++ ['\n'] ++ cString message ++ ['\n'] }
    let c ← GLCall d (.glDeleteShader id) "glDeleteShader(id)".toList file 79 c
    return (0, c)
  else
    return (id, c)

/-- Embedding of `CreateShader`; `file` is `__FILE__`. -/
def CreateShader (d : Driver) (file : List Char) (vertexShader fragmentShader : List Char)
    (c : GLContext) : Except GLContext (Nat × GLContext) := do
  let program := d.retUInt c.calls .glCreateProgram
  let c ← GLCall d .glCreateProgram "unsigned int program = glCreateProgram()".toList file 87 c
  let (vs, c) ← CompileShader d file GL_VERTEX_SHADER vertexShader c
  let (fs, c) ← CompileShader d file GL_FRAGMENT_SHADER fragmentShader c
  let c ← GLCall d (.glAttachShader program vs) "glAttachShader(program, vs)".toList file 91 c
  let c ← GLCall d (.glAttachShader program fs) "glAttachShader(program, fs)".toList file 92 c
  let c ← GLCall d (.glLinkProgram program) "glLinkProgram(program)".toList file 93 c
  let c ← GLCall d (.glValidateProgram program) "glValidateProgram(program)".toList file 94 c
  let c ← GLCall d (.glDeleteShader vs) "glDeleteShader(vs)".toList file 96 c
  let c ← GLCall d (.glDeleteShader fs) "glDeleteShader(fs)".toList file 97 c
  return (program, c)

/-- The array `float positions[]`: four vertices of two components each (the literals
are exactly representable). -/
def positions : List ℚ := [-1/2, -1/2, 1/2, -1/2, 1/2, 1/2, -1/2, 1/2]

/-- The array `unsigned int indeces[]`. -/
def indeces : List Nat := [0, 1, 2, 2, 3, 0]

/-- Number of components per vertex given to `glVertexAttribPointer(0, 2, ...)`. -/
def componentsPerVertex : Nat := 2

/-- Number of vertices in the uploaded vertex buffer. -/
def vertexCount : Nat := positions.length / componentsPerVertex

/-- The graphics-API enumerant for the element type of `indeces` (`unsigned int`). -/
def indecesElementType : Nat := GL_UNSIGNED_INT

/-- The draw call of the render loop, `glDrawElements(GL_TRIANGLES, 6, GL_INT, nullptr)`. -/
def drawCall : GLCmd := .glDrawElements GL_TRIANGLES 6 GL_INT 0

/-- The text `#x` of the wrapped draw call. -/
def drawCallText : List Char := "glDrawElements(GL_TRIANGLES, 6, GL_INT, nullptr)".toList

/-- The index types the graphics API accepts for `glDrawElements`. -/
def drawElementsTypes : List Nat := [GL_UNSIGNED_BYTE, GL_UNSIGNED_SHORT, GL_UNSIGNED_INT]

/-- Errors the graphics API specifies for `glDrawElements` from its scalar arguments:
`GL_INVALID_ENUM` for a type that is not an accepted index type, `GL_INVALID_VALUE` for a
negative count. -/
def drawElementsErrors (count : Int) (type : Nat) : List Nat :=
  if type ∉ drawElementsTypes then [GL_INVALID_ENUM]
  else if count < 0 then [GL_INVALID_VALUE]
  else []

/-- A driver that follows the graphics API on the calls used here: `glDrawElements`
raises the errors of `drawElementsErrors`, attaching shader 0 raises
`GL_INVALID_VALUE`; the program object is 1, the vertex stage is object 2 and fails to
compile with a one-line log, the fragment stage is object 3 and compiles. -/
def apiDriver : Driver where
  raises := fun _ x =>
    match x with
    | .glDrawElements _ count type _ => drawElementsErrors count type
    | .glAttachShader _ shader => if shader = 0 then [GL_INVALID_VALUE] else []
    | _ => []
  retUInt := fun _ x =>
    match x with
    | .glCreateProgram => 1
    | .glCreateShader type => if type = GL_VERTEX_SHADER then 2 else 3
    | _ => 0
  outInt := fun _ x =>
    match x with
    | .glGetShaderiv id pname =>
      if pname = GL_COMPILE_STATUS then (if id = 2 then GL_FALSE else GL_TRUE)
      else if id = 2 then 13 else 0
    | _ => 0
  outText := fun _ x =>
    match x with
    | .glGetShaderInfoLog id _ => if id = 2 then "syntax error".toList else []
    | _ => []
  scratch := fun _ => []

/-- A driver that raises no error and accepts every shader: every created object is 7,
every compile status is `GL_TRUE`. -/
def quietDriver : Driver where
  raises := fun _ _ => []
  retUInt := fun _ _ => 7
  outInt := fun _ _ => GL_TRUE
  outText := fun _ _ => []
  scratch := fun _ => []

/-- A driver that raises no error and rejects every shader with the log `bad`. -/
def rejectingDriver : Driver where
  raises := fun _ _ => []
  retUInt := fun _ _ => 7
  outInt := fun _ x =>
    match x with
    | .glGetShaderiv _ pname => if pname = GL_COMPILE_STATUS then GL_FALSE else 4
    | _ => 0
  outText := fun _ _ => "bad".toList
  scratch := fun _ => []

/-- The value of `__FILE__` used in the examples. -/
def exampleFile : List Char := "Application.cpp".toList

/-! ### Lemmas on `find` -/

theorem find_iff_infix (h n : List Char) : find h n = true ↔ n <:+: h := by
  induction h with
  | nil => simp [find, List.isEmpty_iff]
  | cons c cs ih =>
    simp only [find, Bool.or_eq_true, ih, List.infix_cons_iff]
    constructor
    · rintro (h | h)
      · exact Or.inl (List.isPrefixOf_iff_prefix.mp h)
      · exact Or.inr h
    · rintro (h | h)
      · exact Or.inl (List.isPrefixOf_iff_prefix.mpr h)
      · exact Or.inr h

theorem isPrefixOf_append_newline (p x b : List Char) (hp : '\n' ∉ p) :
    p.isPrefixOf (x ++ '\n' :: b) = p.isPrefixOf x := by
  induction p generalizing x with
  | nil => simp [List.isPrefixOf]
  | cons c p ih =>
    have hc : c ≠ '\n' := fun h => hp (by simp [h])
    have hp2 : '\n' ∉ p := fun h => hp (by simp [h])
    cases x with
    | nil => simp [List.isPrefixOf, hc]
    | cons d x => simp [List.isPrefixOf, ih x hp2]

theorem find_append_newline (p a b : List Char) (hne : p ≠ []) (hp : '\n' ∉ p) :
    find (a ++ '\n' :: b) p = (find a p || find b p) := by
  induction a with
  | nil =>
    have h1 := isPrefixOf_append_newline p [] b hp
    simp only [List.nil_append] at h1
    cases p with
    | nil => exact absurd rfl hne
    | cons c p =>
      have h2 : (c :: p).isPrefixOf ([] : List Char) = false := rfl
      rw [List.nil_append]
      show ((c :: p).isPrefixOf ('\n' :: b) || find b (c :: p)) = (false || find b (c :: p))
      rw [h1, h2]
  | cons c a ih =>
    have h1 := isPrefixOf_append_newline p (c :: a) b hp
    rw [List.cons_append] at h1 ⊢
    show (p.isPrefixOf (c :: (a ++ '\n' :: b)) || find (a ++ '\n' :: b) p)
      = ((p.isPrefixOf (c :: a) || find a p) || find b p)
    rw [h1, ih, Bool.or_assoc]

theorem unlines_nil : unlines [] = [] := rfl

theorem unlines_cons (l : List Char) (ls : List (List Char)) :
    unlines (l :: ls) = l ++ '\n' :: unlines ls := by
  simp [unlines]

theorem unlines_append (xs ys : List (List Char)) :
    unlines (xs ++ ys) = unlines xs ++ unlines ys := by
  simp [unlines]

theorem find_unlines (p : List Char) (hne : p ≠ []) (hp : '\n' ∉ p) (ls : List (List Char))
    (h : ∀ l ∈ ls, find l p = false) : find (unlines ls) p = false := by
  induction ls with
  | nil =>
    cases p with
    | nil => exact absurd rfl hne
    | cons c p => simp [unlines, find]
  | cons l ls ih =>
    rw [unlines_cons, find_append_newline p l _ hne hp, h l (by simp),
      ih (fun x hx => h x (by simp [hx]))]
    rfl

theorem count_newline_unlines (ls : List (List Char)) (h : ∀ l ∈ ls, '\n' ∉ l) :
    (unlines ls).count '\n' = ls.length := by
  induction ls with
  | nil => simp [unlines]
  | cons l ls ih =>
    rw [unlines_cons, List.count_append, List.count_cons_self,
      ih (fun x hx => h x (by simp [hx])), List.count_eq_zero_of_not_mem (h l (by simp))]
    simp

/-! ### Lemmas on `getlines` -/

theorem getlines_line (cur l rest : List Char) (hl : '\n' ∉ l) :
    getlines cur (l ++ '\n' :: rest) = (cur ++ l) :: getlines [] rest := by
  induction l generalizing cur with
  | nil => simp [getlines]
  | cons c l ih =>
    have hc : c ≠ '\n' := fun h => hl (by simp [h])
    have hl2 : '\n' ∉ l := fun h => hl (by simp [h])
    simp [getlines, hc, ih _ hl2]

theorem getlines_last (cur l : List Char) (hl : '\n' ∉ l) (hne : cur ++ l ≠ []) :
    getlines cur l = [cur ++ l] := by
  induction l generalizing cur with
  | nil => simpa [getlines] using hne
  | cons c l ih =>
    have hc : c ≠ '\n' := fun h => hl (by simp [h])
    have hl2 : '\n' ∉ l := fun h => hl (by simp [h])
    simp [getlines, hc, ih (cur ++ [c]) hl2 (by simp)]

theorem getlines_unlines (ls : List (List Char)) (rest : List Char)
    (h : ∀ l ∈ ls, '\n' ∉ l) : getlines [] (unlines ls ++ rest) = ls ++ getlines [] rest := by
  induction ls with
  | nil => simp [unlines]
  | cons l ls ih =>
    rw [unlines_cons, List.append_assoc, List.cons_append, getlines_line [] l _ (h l (by simp)),
      ih (fun x hx => h x (by simp [hx]))]
    simp

theorem getlines_split (cur a rest : List Char) :
    getlines cur (a ++ '\n' :: rest) = getlines cur (a ++ ['\n']) ++ getlines [] rest := by
  induction a generalizing cur with
  | nil => simp [getlines]
  | cons c a ih =>
    by_cases hc : c = '\n'
    · simp [getlines, hc, ih []]
    · simp [getlines, hc, ih (cur ++ [c])]

theorem getlines_nil : getlines [] [] = [] := rfl

/-! ### Lemmas on `parseLoop` -/

theorem shaderMarker_ne_nil : shaderMarker ≠ [] := by decide

theorem newline_not_mem_shaderMarker : '\n' ∉ shaderMarker := by decide

theorem parseLoop_nil (t : ShaderType) (s0 s1 : List Char) :
    parseLoop t s0 s1 [] = ⟨[], some ⟨s0, s1⟩⟩ := rfl

theorem parseLoop_cons (t : ShaderType) (s0 s1 line : List Char) (rest : List (List Char)) :
    parseLoop t s0 s1 (line :: rest) =
      if find line shaderMarker then
        if find line vertexKeyword then parseLoop .VERTEX s0 s1 rest
        else if find line fragmentKeyword then parseLoop .FRAGMENT s0 s1 rest
        else parseLoop t s0 s1 rest
      else
        if t.toInt = 0 then
          ⟨t.toInt :: (parseLoop t (s0 ++ line ++ ['\n']) s1 rest).subscripts,
            (parseLoop t (s0 ++ line ++ ['\n']) s1 rest).result⟩
        else if t.toInt = 1 then
          ⟨t.toInt :: (parseLoop t s0 (s1 ++ line ++ ['\n']) rest).subscripts,
            (parseLoop t s0 (s1 ++ line ++ ['\n']) rest).result⟩
        else ⟨[t.toInt], none⟩ := by
  rw [parseLoop]

theorem parseLoop_toVertex (t : ShaderType) (s0 s1 l : List Char) (rest : List (List Char))
    (hm : find l shaderMarker = true) (hv : find l vertexKeyword = true) :
    parseLoop t s0 s1 (l :: rest) = parseLoop .VERTEX s0 s1 rest := by
  simp [parseLoop, hm, hv]

theorem parseLoop_toFragment (t : ShaderType) (s0 s1 l : List Char) (rest : List (List Char))
    (hm : find l shaderMarker = true) (hv : find l vertexKeyword = false)
    (hf : find l fragmentKeyword = true) :
    parseLoop t s0 s1 (l :: rest) = parseLoop .FRAGMENT s0 s1 rest := by
  simp [parseLoop, hm, hv, hf]

theorem parseLoop_unrecognized (t : ShaderType) (s0 s1 l : List Char) (rest : List (List Char))
    (hm : find l shaderMarker = true) (hv : find l vertexKeyword = false)
    (hf : find l fragmentKeyword = false) :
    parseLoop t s0 s1 (l :: rest) = parseLoop t s0 s1 rest := by
  simp [parseLoop, hm, hv, hf]

theorem parseLoop_vertexLine (s0 s1 l : List Char) (rest : List (List Char))
    (hm : find l shaderMarker = false) :
    parseLoop .VERTEX s0 s1 (l :: rest)
      = ⟨0 :: (parseLoop .VERTEX (s0 ++ l ++ ['\n']) s1 rest).subscripts,
         (parseLoop .VERTEX (s0 ++ l ++ ['\n']) s1 rest).result⟩ := by
  simp [parseLoop, hm, ShaderType.toInt]

theorem parseLoop_fragmentLine (s0 s1 l : List Char) (rest : List (List Char))
    (hm : find l shaderMarker = false) :
    parseLoop .FRAGMENT s0 s1 (l :: rest)
      = ⟨1 :: (parseLoop .FRAGMENT s0 (s1 ++ l ++ ['\n']) rest).subscripts,
         (parseLoop .FRAGMENT s0 (s1 ++ l ++ ['\n']) rest).result⟩ := by
  simp [parseLoop, hm, ShaderType.toInt]

theorem parseLoop_noneLine (s0 s1 l : List Char) (rest : List (List Char))
    (hm : find l shaderMarker = false) :
    parseLoop .NONE s0 s1 (l :: rest) = ⟨[-1], none⟩ := by
  simp [parseLoop, hm, ShaderType.toInt]

theorem parseLoop_vertexLines (s0 s1 : List Char) (ls rest : List (List Char))
    (h : ∀ l ∈ ls, find l shaderMarker = false) :
    parseLoop .VERTEX s0 s1 (ls ++ rest)
      = ⟨List.replicate ls.length 0 ++ (parseLoop .VERTEX (s0 ++ unlines ls) s1 rest).subscripts,
         (parseLoop .VERTEX (s0 ++ unlines ls) s1 rest).result⟩ := by
  induction ls generalizing s0 with
  | nil => simp [unlines]
  | cons l ls ih =>
    rw [List.cons_append, parseLoop_vertexLine _ _ _ _ (h l (by simp)),
      ih _ (fun x hx => h x (by simp [hx])), unlines_cons]
    simp [List.replicate_succ]

theorem parseLoop_fragmentLines (s0 s1 : List Char) (ls rest : List (List Char))
    (h : ∀ l ∈ ls, find l shaderMarker = false) :
    parseLoop .FRAGMENT s0 s1 (ls ++ rest)
      = ⟨List.replicate ls.length 1
          ++ (parseLoop .FRAGMENT s0 (s1 ++ unlines ls) rest).subscripts,
         (parseLoop .FRAGMENT s0 (s1 ++ unlines ls) rest).result⟩ := by
  induction ls generalizing s1 with
  | nil => simp [unlines]
  | cons l ls ih =>
    rw [List.cons_append, parseLoop_fragmentLine _ _ _ _ (h l (by simp)),
      ih _ (fun x hx => h x (by simp [hx])), unlines_cons]
    simp [List.replicate_succ]

theorem parseLoop_delete (t : ShaderType) (s0 s1 l : List Char) (xs ys : List (List Char))
    (hm : find l shaderMarker = true) (hv : find l vertexKeyword = false)
    (hf : find l fragmentKeyword = false) :
    parseLoop t s0 s1 (xs ++ l :: ys) = parseLoop t s0 s1 (xs ++ ys) := by
  induction xs generalizing t s0 s1 with
  | nil => simpa using parseLoop_unrecognized t s0 s1 l ys hm hv hf
  | cons x xs ih =>
    rw [List.cons_append, List.cons_append, parseLoop_cons, parseLoop_cons]
    simp only [ih]

theorem parseLoop_inRange (t : ShaderType) (ht : t ≠ .NONE) (s0 s1 : List Char)
    (ls : List (List Char)) :
    (parseLoop t s0 s1 ls).result.isSome = true
      ∧ ∀ i ∈ (parseLoop t s0 s1 ls).subscripts, i = 0 ∨ i = 1 := by
  induction ls generalizing t s0 s1 with
  | nil => simp [parseLoop]
  | cons l ls ih =>
    rw [parseLoop_cons]
    by_cases hm : find l shaderMarker = true
    · by_cases hv : find l vertexKeyword = true
      · simpa [hm, hv] using ih .VERTEX (by decide) s0 s1
      · by_cases hf : find l fragmentKeyword = true
        · simpa [hm, hv, hf] using ih .FRAGMENT (by decide) s0 s1
        · simpa [hm, hv, hf] using ih t ht s0 s1
    · cases t with
      | NONE => exact absurd rfl ht
      | VERTEX =>
        simpa [hm, ShaderType.toInt] using ih .VERTEX (by decide) (s0 ++ l ++ ['\n']) s1
      | FRAGMENT =>
        simpa [hm, ShaderType.toInt] using ih .FRAGMENT (by decide) s0 (s1 ++ l ++ ['\n'])

theorem parseLoop_result_none_iff (t : ShaderType) (s0 s1 : List Char)
    (ls : List (List Char)) :
    (parseLoop t s0 s1 ls).result = none ↔ (-1 : Int) ∈ (parseLoop t s0 s1 ls).subscripts := by
  induction ls generalizing t s0 s1 with
  | nil => simp [parseLoop]
  | cons l ls ih =>
    rw [parseLoop_cons]
    by_cases hm : find l shaderMarker = true
    · by_cases hv : find l vertexKeyword = true
      · simpa [hm, hv] using ih .VERTEX s0 s1
      · by_cases hf : find l fragmentKeyword = true
        · simpa [hm, hv, hf] using ih .FRAGMENT s0 s1
        · simpa [hm, hv, hf] using ih t s0 s1
    · cases t with
      | NONE => simp [hm, ShaderType.toInt]
      | VERTEX =>
        simpa [hm, ShaderType.toInt] using ih .VERTEX (s0 ++ l ++ ['\n']) s1
      | FRAGMENT =>
        simpa [hm, ShaderType.toInt] using ih .FRAGMENT s0 (s1 ++ l ++ ['\n'])

theorem parseLoop_none_iff (s0 s1 : List Char) (ls : List (List Char)) :
    (-1 : Int) ∈ (parseLoop .NONE s0 s1 ls).subscripts ↔
      ∃ pre l post, ls = pre ++ l :: post ∧ find l shaderMarker = false ∧
        ∀ x ∈ pre, ¬ (find x shaderMarker = true ∧
          (find x vertexKeyword = true ∨ find x fragmentKeyword = true)) := by
  induction ls with
  | nil => simp [parseLoop]
  | cons a ls ih =>
    by_cases hm : find a shaderMarker = true
    · by_cases hsw : find a vertexKeyword = true ∨ find a fragmentKeyword = true
      · have hno : (-1 : Int) ∉ (parseLoop .NONE s0 s1 (a :: ls)).subscripts := by
          intro hmem
          rcases hsw with hv | hf
          · rw [parseLoop_toVertex _ _ _ _ _ hm hv] at hmem
            have := (parseLoop_inRange .VERTEX (by decide) s0 s1 ls).2 _ hmem
            omega
          · by_cases hv : find a vertexKeyword = true
            · rw [parseLoop_toVertex _ _ _ _ _ hm hv] at hmem
              have := (parseLoop_inRange .VERTEX (by decide) s0 s1 ls).2 _ hmem
              omega
            · rw [parseLoop_toFragment _ _ _ _ _ hm (by simpa using hv) hf] at hmem
              have := (parseLoop_inRange .FRAGMENT (by decide) s0 s1 ls).2 _ hmem
              omega
        constructor
        · intro h; exact absurd h hno
        · rintro ⟨pre, l, post, heq, hl, hpre⟩
          cases pre with
          | nil =>
            simp only [List.nil_append, List.cons.injEq] at heq
            rw [← heq.1, hm] at hl
            exact absurd hl (by simp)
          | cons p pre =>
            simp only [List.cons_append, List.cons.injEq] at heq
            exact absurd ⟨hm, hsw⟩ (heq.1 ▸ hpre p (by simp))
      · have hv : find a vertexKeyword = false := by
          cases h : find a vertexKeyword
          · rfl
          · exact absurd (Or.inl h) hsw
        have hf : find a fragmentKeyword = false := by
          cases h : find a fragmentKeyword
          · rfl
          · exact absurd (Or.inr h) hsw
        rw [parseLoop_unrecognized _ _ _ _ _ hm hv hf, ih]
        constructor
        · rintro ⟨pre, l, post, heq, hl, hpre⟩
          refine ⟨a :: pre, l, post, by simp [heq], hl, ?_⟩
          intro x hx
          rcases List.mem_cons.mp hx with rfl | hx
          · exact fun h => hsw h.2
          · exact hpre x hx
        · rintro ⟨pre, l, post, heq, hl, hpre⟩
          cases pre with
          | nil =>
            simp only [List.nil_append, List.cons.injEq] at heq
            rw [← heq.1, hm] at hl
            exact absurd hl (by simp)
          | cons p pre =>
            simp only [List.cons_append, List.cons.injEq] at heq
            exact ⟨pre, l, post, heq.2, hl, fun x hx => hpre x (by simp [hx])⟩
    · have hm2 : find a shaderMarker = false := by simpa using hm
      rw [parseLoop_noneLine _ _ _ _ hm2]
      constructor
      · intro _
        exact ⟨[], a, ls, rfl, hm2, by simp⟩
      · intro _; simp

theorem parseLoop_some (t : ShaderType) (a b ls : List (List Char)) (r : ShaderProgramSource)
    (h : (parseLoop t (unlines a) (unlines b) ls).result = some r) :
    ∃ vs fs, r = ⟨unlines (a ++ vs), unlines (b ++ fs)⟩ ∧
      (∀ l ∈ vs, l ∈ ls ∧ find l shaderMarker = false) ∧
      (∀ l ∈ fs, l ∈ ls ∧ find l shaderMarker = false) := by
  induction ls generalizing t a b with
  | nil =>
    refine ⟨[], [], ?_, by simp, by simp⟩
    simpa [parseLoop, eq_comm] using h
  | cons l ls ih =>
    have lift : (∃ vs fs, r = ⟨unlines (a ++ vs), unlines (b ++ fs)⟩ ∧
        (∀ x ∈ vs, x ∈ ls ∧ find x shaderMarker = false) ∧
        (∀ x ∈ fs, x ∈ ls ∧ find x shaderMarker = false)) →
        ∃ vs fs, r = ⟨unlines (a ++ vs), unlines (b ++ fs)⟩ ∧
        (∀ x ∈ vs, x ∈ l :: ls ∧ find x shaderMarker = false) ∧
        (∀ x ∈ fs, x ∈ l :: ls ∧ find x shaderMarker = false) := by
      rintro ⟨vs, fs, hr, h1, h2⟩
      exact ⟨vs, fs, hr, fun x hx => ⟨List.mem_cons_of_mem _ (h1 x hx).1, (h1 x hx).2⟩,
        fun x hx => ⟨List.mem_cons_of_mem _ (h2 x hx).1, (h2 x hx).2⟩⟩
    rw [parseLoop_cons] at h
    by_cases hm : find l shaderMarker = true
    · by_cases hv : find l vertexKeyword = true
      · simp only [hm, hv, if_true] at h
        exact lift (ih _ _ _ h)
      · by_cases hf : find l fragmentKeyword = true
        · simp only [hm, hv, hf, if_true, if_false] at h
          exact lift (ih _ _ _ h)
        · simp only [hm, hv, hf, if_true, if_false] at h
          exact lift (ih _ _ _ h)
    · have hm2 : find l shaderMarker = false := by simpa using hm
      cases t with
      | NONE => simp [hm, ShaderType.toInt] at h
      | VERTEX =>
        have e : unlines a ++ l ++ ['\n'] = unlines (a ++ [l]) := by
          simp [unlines]
        simp only [hm, ShaderType.toInt, if_true, if_false, e] at h
        obtain ⟨vs, fs, hr, h1, h2⟩ := ih _ _ _ h
        refine ⟨l :: vs, fs, by simpa using hr, ?_, ?_⟩
        · intro x hx
          rcases List.mem_cons.mp hx with rfl | hx
          · exact ⟨by simp, hm2⟩
          · exact ⟨List.mem_cons_of_mem _ (h1 x hx).1, (h1 x hx).2⟩
        · exact fun x hx => ⟨List.mem_cons_of_mem _ (h2 x hx).1, (h2 x hx).2⟩
      | FRAGMENT =>
        have e : unlines b ++ l ++ ['\n'] = unlines (b ++ [l]) := by
          simp [unlines]
        simp only [hm, ShaderType.toInt, if_true, if_false, e] at h
        obtain ⟨vs, fs, hr, h1, h2⟩ := ih _ _ _ h
        refine ⟨vs, l :: fs, by simpa using hr, ?_, ?_⟩
        · exact fun x hx => ⟨List.mem_cons_of_mem _ (h1 x hx).1, (h1 x hx).2⟩
        · intro x hx
          rcases List.mem_cons.mp hx with rfl | hx
          · exact ⟨by simp, hm2⟩
          · exact ⟨List.mem_cons_of_mem _ (h2 x hx).1, (h2 x hx).2⟩

theorem getlines_unlines_all (ls : List (List Char)) (h : ∀ l ∈ ls, '\n' ∉ l) :
    getlines [] (unlines ls) = ls := by
  have := getlines_unlines ls [] h
  simpa [getlines_nil] using this

/-! ## Claims on the shader source parser -/

/-- C1: for all lists of lines `V` and `F` whose lines contain neither a newline nor
`"#shader"`, `ParseShader` on the text made of the line `#shader vertex`, the lines of
`V`, the line `#shader fragment` and the lines of `F` (each newline-terminated) returns
`VertexSource` = the lines of `V` in order, each followed by a newline, and
`FragmentSource` = the lines of `F` in order, each followed by a newline; every append
uses subscript 0 (for `V`) or 1 (for `F`). -/
theorem ParseShader_roundtrip (V F : List (List Char))
    (hV : ∀ l ∈ V, '\n' ∉ l ∧ find l shaderMarker = false)
    (hF : ∀ l ∈ F, '\n' ∉ l ∧ find l shaderMarker = false) :
    ParseShader (unlines (vertexDirective :: V ++ fragmentDirective :: F))
      = ⟨List.replicate V.length 0 ++ List.replicate F.length 1,
         some ⟨unlines V, unlines F⟩⟩ := by
  have hlines : ∀ l ∈ vertexDirective :: V ++ fragmentDirective :: F, '\n' ∉ l := by
    intro l hl
    simp only [List.cons_append, List.mem_cons, List.mem_append] at hl
    rcases hl with rfl | hl | rfl | hl
    · decide
    · exact (hV l hl).1
    · decide
    · exact (hF l hl).1
  unfold ParseShader
  rw [getlines_unlines_all _ hlines, List.cons_append,
    parseLoop_toVertex _ _ _ _ _ (by decide) (by decide),
    parseLoop_vertexLines _ _ _ _ (fun l hl => (hV l hl).2),
    parseLoop_toFragment _ _ _ _ _ (by decide) (by decide) (by decide)]
  have hF2 := parseLoop_fragmentLines ([] ++ unlines V) [] F [] (fun l hl => (hF l hl).2)
  rw [List.append_nil] at hF2
  rw [hF2, parseLoop_nil]
  simp

/-- Witness of C1: the text `#shader vertex\nV1\nV2\n#shader fragment\nF1\n`. -/
theorem ParseShader_roundtrip_witness :
    (∀ l ∈ [['V', '1'], ['V', '2']], '\n' ∉ l ∧ find l shaderMarker = false) ∧
    (∀ l ∈ [['F', '1']], '\n' ∉ l ∧ find l shaderMarker = false) ∧
    ParseShader "#shader vertex\nV1\nV2\n#shader fragment\nF1\n".toList
      = ⟨[0, 0, 1], some ⟨"V1\nV2\n".toList, "F1\n".toList⟩⟩ :=
  ⟨by decide, by decide,
    ParseShader_roundtrip [['V', '1'], ['V', '2']] [['F', '1']] (by decide) (by decide)⟩

/-- C2: whenever `ParseShader` is defined on a text (its result is `some r`), neither
`r.VertexSource` nor `r.FragmentSource` contains `"#shader"`; both are made of input
lines that do not contain `"#shader"`, each followed by a newline. -/
theorem ParseShader_no_marker (content : List Char) (r : ShaderProgramSource)
    (h : (ParseShader content).result = some r) :
    find r.VertexSource shaderMarker = false ∧ find r.FragmentSource shaderMarker = false ∧
      ∃ vs fs, r.VertexSource = unlines vs ∧ r.FragmentSource = unlines fs ∧
        ∀ l ∈ vs ++ fs, l ∈ getlines [] content ∧ find l shaderMarker = false := by
  obtain ⟨vs, fs, hr, h1, h2⟩ := parseLoop_some .NONE [] [] (getlines [] content) r h
  simp only [List.nil_append] at hr
  subst hr
  refine ⟨find_unlines _ shaderMarker_ne_nil newline_not_mem_shaderMarker vs
      (fun l hl => (h1 l hl).2),
    find_unlines _ shaderMarker_ne_nil newline_not_mem_shaderMarker fs
      (fun l hl => (h2 l hl).2), vs, fs, rfl, rfl, ?_⟩
  intro l hl
  rcases List.mem_append.mp hl with hl | hl
  · exact h1 l hl
  · exact h2 l hl

/-- Witness of C2: a text with a marker inside a comment and an unrecognised marker. -/
theorem ParseShader_no_marker_witness :
    (ParseShader "#shader vertex\na // #shader\nb\n#shader fragment\n#shader x\nc".toList).result
      = some ⟨"b\n".toList, "c\n".toList⟩ ∧
    find "b\n".toList shaderMarker = false ∧ find "c\n".toList shaderMarker = false :=
  ⟨by decide,
    (ParseShader_no_marker
      "#shader vertex\na // #shader\nb\n#shader fragment\n#shader x\nc".toList
      ⟨"b\n".toList, "c\n".toList⟩ (by decide)).1,
    (ParseShader_no_marker
      "#shader vertex\na // #shader\nb\n#shader fragment\n#shader x\nc".toList
      ⟨"b\n".toList, "c\n".toList⟩ (by decide)).2.1⟩

/-- C3: deleting one line that contains `"#shader"` but neither `"vertex"` nor
`"fragment"` does not change the run of `ParseShader`, whether the line is followed by
a newline or is the unterminated last line; the loop passes over such a line with the
section state and both buffers unchanged. -/
theorem ParseShader_delete_unrecognized (pre l post : List Char)
    (hpre : pre = [] ∨ ∃ p, pre = p ++ ['\n']) (hl : '\n' ∉ l)
    (hm : find l shaderMarker = true) (hv : find l vertexKeyword = false)
    (hf : find l fragmentKeyword = false) :
    ParseShader (pre ++ l ++ '\n' :: post) = ParseShader (pre ++ post) ∧
    ParseShader (pre ++ l) = ParseShader pre ∧
    ∀ (t : ShaderType) (s0 s1 : List Char) (rest : List (List Char)),
      parseLoop t s0 s1 (l :: rest) = parseLoop t s0 s1 rest := by
  have hne : l ≠ [] := by
    rintro rfl
    simp [find, shaderMarker] at hm
  refine ⟨?_, ?_, fun t s0 s1 rest => parseLoop_unrecognized t s0 s1 l rest hm hv hf⟩
  · unfold ParseShader
    rcases hpre with rfl | ⟨p, rfl⟩
    · rw [List.nil_append, List.nil_append, getlines_line [] l post hl, List.nil_append]
      exact parseLoop_unrecognized _ _ _ _ _ hm hv hf
    · have e1 : p ++ ['\n'] ++ l ++ '\n' :: post = p ++ '\n' :: (l ++ '\n' :: post) := by simp
      have e2 : p ++ ['\n'] ++ post = p ++ '\n' :: post := by simp
      rw [e1, e2, getlines_split [] p, getlines_split [] p post, getlines_line [] l post hl,
        List.nil_append]
      exact parseLoop_delete _ _ _ _ _ _ hm hv hf
  · unfold ParseShader
    rcases hpre with rfl | ⟨p, rfl⟩
    · rw [List.nil_append, getlines_last [] l hl (by simpa using hne), List.nil_append,
        getlines_nil]
      exact parseLoop_unrecognized _ _ _ _ _ hm hv hf
    · have e1 : p ++ ['\n'] ++ l = p ++ '\n' :: l := by simp
      rw [e1, getlines_split [] p, getlines_last [] l hl (by simpa using hne), List.nil_append]
      have := parseLoop_delete .NONE [] [] l (getlines [] (p ++ ['\n'])) [] hm hv hf
      simpa using this

/-- Witness of C3: the line `#shader geometry` deleted after `#shader vertex\na\n`. -/
theorem ParseShader_delete_unrecognized_witness :
    (find "#shader geometry".toList shaderMarker = true ∧
      find "#shader geometry".toList vertexKeyword = false ∧
      find "#shader geometry".toList fragmentKeyword = false) ∧
    ParseShader "#shader vertex\na\n#shader geometry\nb\n".toList
      = ParseShader "#shader vertex\na\nb\n".toList ∧
    ParseShader "#shader vertex\na\n#shader geometry".toList
      = ParseShader "#shader vertex\na\n".toList :=
  ⟨by decide,
   (ParseShader_delete_unrecognized "#shader vertex\na\n".toList "#shader geometry".toList
      "b\n".toList (Or.inr ⟨"#shader vertex\na".toList, by decide⟩) (by decide) (by decide)
      (by decide) (by decide)).1,
   (ParseShader_delete_unrecognized "#shader vertex\na\n".toList "#shader geometry".toList
      "b\n".toList (Or.inr ⟨"#shader vertex\na".toList, by decide⟩) (by decide) (by decide)
      (by decide) (by decide)).2.1⟩

/-- C4, as stated, fails: after the line `#shader fraghment` (which contains neither
`"vertex"` nor `"fragment"`) the section is still the vertex one, so with `N = M = 1`
the line `F1` lands in `VertexSource` and `FragmentSource` is empty. -/
theorem ParseShader_fraghment_counterexample :
    ParseShader "#shader vertex\nV1\n#shader fraghment\nF1\n".toList
      = ⟨[0, 0], some ⟨"V1\nF1\n".toList, []⟩⟩ ∧
    (ParseShader "#shader vertex\nV1\n#shader fraghment\nF1\n".toList).result
      ≠ some ⟨unlines ["V1".toList], unlines ["F1".toList]⟩ ∧
    ¬ (∀ V F : List (List Char), (∀ l ∈ V, '\n' ∉ l ∧ find l shaderMarker = false) →
        (∀ l ∈ F, '\n' ∉ l ∧ find l shaderMarker = false) →
        ∃ r, (ParseShader (unlines (vertexDirective :: V ++ fraghmentDirective :: F))).result
            = some r ∧
          r.VertexSource.count '\n' = V.length ∧ r.FragmentSource.count '\n' = F.length) := by
  refine ⟨by decide, by decide, ?_⟩
  intro h
  obtain ⟨r, hr, _, h2⟩ := h ["V1".toList] ["F1".toList] (by decide) (by decide)
  have e : (ParseShader (unlines (vertexDirective :: ["V1".toList]
      ++ fraghmentDirective :: ["F1".toList]))).result = some ⟨"V1\nF1\n".toList, []⟩ := by
    decide
  rw [e] at hr
  cases hr
  exact absurd h2 (by decide)

/-- C4, amended: with the second marker spelt `#shader fragment`, `N` non-marker lines
after `#shader vertex` and `M` non-marker lines after the second marker give a
`VertexSource` of exactly the `N` lines, newline-terminated (`N` newlines), and a
`FragmentSource` of exactly the `M` lines (`M` newlines), both marker lines excluded;
with the spelling `#shader fraghment` all `N + M` lines go to `VertexSource` and
`FragmentSource` is empty. -/
theorem ParseShader_line_counts (V F : List (List Char))
    (hV : ∀ l ∈ V, '\n' ∉ l ∧ find l shaderMarker = false)
    (hF : ∀ l ∈ F, '\n' ∉ l ∧ find l shaderMarker = false) :
    ((ParseShader (unlines (vertexDirective :: V ++ fragmentDirective :: F))).result
        = some ⟨unlines V, unlines F⟩ ∧
      (unlines V).count '\n' = V.length ∧ (unlines F).count '\n' = F.length ∧
      find (unlines V) shaderMarker = false ∧ find (unlines F) shaderMarker = false) ∧
    ((ParseShader (unlines (vertexDirective :: V ++ fraghmentDirective :: F))).result
        = some ⟨unlines (V ++ F), []⟩ ∧
      (unlines (V ++ F)).count '\n' = V.length + F.length) := by
  have hlines : ∀ d : List Char, '\n' ∉ d → ∀ l ∈ vertexDirective :: V ++ d :: F, '\n' ∉ l := by
    intro d hd l hl
    simp only [List.cons_append, List.mem_cons, List.mem_append] at hl
    rcases hl with rfl | hl | rfl | hl
    · decide
    · exact (hV l hl).1
    · exact hd
    · exact (hF l hl).1
  have hVF : ∀ l ∈ V ++ F, '\n' ∉ l ∧ find l shaderMarker = false := by
    intro l hl
    rcases List.mem_append.mp hl with hl | hl
    · exact hV l hl
    · exact hF l hl
  refine ⟨⟨?_, count_newline_unlines V (fun l hl => (hV l hl).1),
      count_newline_unlines F (fun l hl => (hF l hl).1),
      find_unlines _ shaderMarker_ne_nil newline_not_mem_shaderMarker V (fun l hl => (hV l hl).2),
      find_unlines _ shaderMarker_ne_nil newline_not_mem_shaderMarker F
        (fun l hl => (hF l hl).2)⟩, ?_, ?_⟩
  · unfold ParseShader
    rw [getlines_unlines_all _ (hlines fragmentDirective (by decide)), List.cons_append,
      parseLoop_toVertex _ _ _ _ _ (by decide) (by decide),
      parseLoop_vertexLines _ _ _ _ (fun l hl => (hV l hl).2),
      parseLoop_toFragment _ _ _ _ _ (by decide) (by decide) (by decide)]
    have hF2 := parseLoop_fragmentLines ([] ++ unlines V) [] F [] (fun l hl => (hF l hl).2)
    rw [List.append_nil] at hF2
    rw [hF2, parseLoop_nil]
    simp
  · unfold ParseShader
    rw [getlines_unlines_all _ (hlines fraghmentDirective (by decide)), List.cons_append,
      parseLoop_toVertex _ _ _ _ _ (by decide) (by decide),
      parseLoop_delete _ _ _ _ _ _ (by decide) (by decide) (by decide)]
    have h2 := parseLoop_vertexLines [] [] (V ++ F) [] (fun l hl => (hVF l hl).2)
    rw [List.append_nil] at h2
    rw [h2, parseLoop_nil]
    simp
  · rw [count_newline_unlines _ (fun l hl => (hVF l hl).1), List.length_append]

/-- Witness of the amended C4 with `N = 2`, `M = 1`. -/
theorem ParseShader_line_counts_witness :
    (∀ l ∈ [['V', '1'], ['V', '2']], '\n' ∉ l ∧ find l shaderMarker = false) ∧
    (∀ l ∈ [['F', '1']], '\n' ∉ l ∧ find l shaderMarker = false) ∧
    (ParseShader "#shader vertex\nV1\nV2\n#shader fragment\nF1\n".toList).result
      = some ⟨"V1\nV2\n".toList, "F1\n".toList⟩ ∧
    (ParseShader "#shader vertex\nV1\nV2\n#shader fraghment\nF1\n".toList).result
      = some ⟨"V1\nV2\nF1\n".toList, []⟩ :=
  ⟨by decide, by decide,
    (ParseShader_line_counts [['V', '1'], ['V', '2']] [['F', '1']]
      (by decide) (by decide)).1.1,
    (ParseShader_line_counts [['V', '1'], ['V', '2']] [['F', '1']]
      (by decide) (by decide)).2.1⟩

/-- C10: on a text whose first line contains `"#shader"` and `"vertex"`, `ParseShader`
is defined and every subscript used on the array `ss[2]` is 0 or 1; in general the
subscript -1 is used exactly when some line without `"#shader"` comes before the first
line that contains `"#shader"` together with `"vertex"` or `"fragment"`, and this is
exactly when the result is undefined. -/
theorem ParseShader_subscripts (content : List Char) :
    (∀ first rest, getlines [] content = first :: rest →
        find first shaderMarker = true → find first vertexKeyword = true →
        (ParseShader content).result.isSome = true ∧
          (∀ i ∈ (ParseShader content).subscripts, i = 0 ∨ i = 1) ∧
          (-1 : Int) ∉ (ParseShader content).subscripts) ∧
    ((-1 : Int) ∈ (ParseShader content).subscripts ↔
      ∃ pre l post, getlines [] content = pre ++ l :: post ∧ find l shaderMarker = false ∧
        ∀ x ∈ pre, ¬ (find x shaderMarker = true ∧
          (find x vertexKeyword = true ∨ find x fragmentKeyword = true))) ∧
    ((ParseShader content).result = none ↔ (-1 : Int) ∈ (ParseShader content).subscripts) := by
  refine ⟨?_, parseLoop_none_iff [] [] _, parseLoop_result_none_iff _ _ _ _⟩
  intro first rest hlines hm hv
  unfold ParseShader
  rw [hlines, parseLoop_toVertex _ _ _ _ _ hm hv]
  have h := parseLoop_inRange .VERTEX (by decide) [] [] rest
  refine ⟨h.1, h.2, fun hmem => ?_⟩
  have := h.2 _ hmem
  omega

/-- Witness of C10: a text starting with `#shader vertex` uses subscripts 0 and 1 only,
and a text with a line before the first marker uses -1. -/
theorem ParseShader_subscripts_witness :
    ((ParseShader "#shader vertex\nV1\n#shader fragment\nF1\n".toList).result.isSome = true ∧
      (∀ i ∈ (ParseShader "#shader vertex\nV1\n#shader fragment\nF1\n".toList).subscripts,
        i = 0 ∨ i = 1) ∧
      (-1 : Int) ∉ (ParseShader "#shader vertex\nV1\n#shader fragment\nF1\n".toList).subscripts) ∧
    (-1 : Int) ∈ (ParseShader "x\n#shader vertex\nV1\n".toList).subscripts :=
  ⟨(ParseShader_subscripts "#shader vertex\nV1\n#shader fragment\nF1\n".toList).1
      "#shader vertex".toList ["V1".toList, "#shader fragment".toList, "F1".toList]
      (by decide) (by decide) (by decide),
   (ParseShader_subscripts "x\n#shader vertex\nV1\n".toList).2.1.mpr
      ⟨[], "x".toList, ["#shader vertex".toList, "V1".toList], by decide, by decide,
        by simp⟩⟩

/-! ## Error reporter -/

theorem GLClearError_step (c : GLContext) :
    GLClearError c =
      if (glGetError c).1 ≠ GL_NO_ERROR then GLClearError (glGetError c).2
      else (glGetError c).2 := by
  cases c with
  | mk pending calls cout =>
    cases pending with
    | nil => simp [GLClearError, glGetError, clearLoop, GL_NO_ERROR]
    | cons e q =>
      by_cases he : e = GL_NO_ERROR
      · simp [GLClearError, glGetError, clearLoop, he]
      · simp [GLClearError, glGetError, clearLoop, he]

theorem clearLoop_nonzero (q : List Nat) (h : ∀ e ∈ q, e ≠ GL_NO_ERROR) : clearLoop q = [] := by
  induction q with
  | nil => rfl
  | cons e q ih =>
    simp [clearLoop, h e (by simp), ih (fun x hx => h x (by simp [hx]))]

theorem GLCall_eq (d : Driver) (x : GLCmd) (text file : List Char) (line : Nat)
    (c : GLContext) (hq : ∀ e ∈ c.pending, e ≠ GL_NO_ERROR) :
    GLCall d x text file line c =
      match d.raises c.calls x with
      | [] => .ok ⟨[], c.calls ++ [x], c.cout⟩
      | e :: q =>
        if e ≠ 0 then .error ⟨q, c.calls ++ [x], c.cout ++ logEntry e text file line⟩
        else .ok ⟨q, c.calls ++ [x], c.cout⟩ := by
  cases hr : d.raises c.calls x with
  | nil =>
    simp [GLCall, GLLogCall, issue, GLClearError, glGetError, clearLoop_nonzero _ hq, hr,
      GL_NO_ERROR]
  | cons e q =>
    by_cases he : e = 0
    · simp [GLCall, GLLogCall, issue, GLClearError, glGetError, clearLoop_nonzero _ hq, hr, he]
    · simp [GLCall, GLLogCall, issue, GLClearError, glGetError, clearLoop_nonzero _ hq, hr, he]

theorem infix_logEntry (e : Nat) (text file : List Char) (line : Nat) :
    Nat.toDigits 10 e <:+: logEntry e text file line ∧ text <:+: logEntry e text file line ∧
      (file ++ ":".toList ++ Nat.toDigits 10 line) <:+: logEntry e text file line := by
  refine ⟨⟨"[OpenGL Error] (".toList,
      "): ".toList ++ text ++ " ".toList ++ file ++ ":".toList ++ Nat.toDigits 10 line ++ ['\n'],
      by simp [logEntry]⟩,
    ⟨"[OpenGL Error] (".toList ++ Nat.toDigits 10 e ++ "): ".toList,
      " ".toList ++ file ++ ":".toList ++ Nat.toDigits 10 line ++ ['\n'], by simp [logEntry]⟩,
    ⟨"[OpenGL Error] (".toList ++ Nat.toDigits 10 e ++ "): ".toList ++ text ++ " ".toList,
      ['\n'], by simp [logEntry]⟩⟩

/-! ## Claims on the error reporter -/

/-- C5: with the pending errors a queue of nonzero codes, the outcome of `GLCall(x)` does
not depend on the errors pending before it.  If `x` raises no error, `GLLogCall` writes
nothing and returns `true`, and there is no trap; if `x` raises exactly one code `e`,
`GLLogCall` writes exactly one entry, which contains `e`, the text of `x` and
`file:line`, and returns `false`, and the wrapper traps. -/
theorem GLCall_outcome (d : Driver) (x : GLCmd) (text file : List Char) (line : Nat)
    (q : List Nat) (calls : List GLCmd) (cout : List Char)
    (hq : ∀ e ∈ q, e ≠ GL_NO_ERROR) :
    GLCall d x text file line ⟨q, calls, cout⟩ = GLCall d x text file line ⟨[], calls, cout⟩ ∧
    (d.raises calls x = [] →
      GLLogCall text file line (issue d x (GLClearError ⟨q, calls, cout⟩))
        = (true, ⟨[], calls ++ [x], cout⟩) ∧
      GLCall d x text file line ⟨q, calls, cout⟩ = .ok ⟨[], calls ++ [x], cout⟩) ∧
    (∀ e, e ≠ GL_NO_ERROR → d.raises calls x = [e] →
      GLLogCall text file line (issue d x (GLClearError ⟨q, calls, cout⟩))
        = (false, ⟨[], calls ++ [x], cout ++ logEntry e text file line⟩) ∧
      GLCall d x text file line ⟨q, calls, cout⟩
        = .error ⟨[], calls ++ [x], cout ++ logEntry e text file line⟩ ∧
      Nat.toDigits 10 e <:+: logEntry e text file line ∧
      text <:+: logEntry e text file line ∧
      (file ++ ":".toList ++ Nat.toDigits 10 line) <:+: logEntry e text file line) := by
  have h0 : ∀ e ∈ (⟨[], calls, cout⟩ : GLContext).pending, e ≠ GL_NO_ERROR := by simp
  refine ⟨?_, ?_, ?_⟩
  · rw [GLCall_eq d x text file line ⟨q, calls, cout⟩ hq, GLCall_eq d x text file line _ h0]
  · intro hr
    refine ⟨?_, ?_⟩
    · simp [GLLogCall, issue, GLClearError, glGetError, clearLoop_nonzero _ hq, hr, GL_NO_ERROR]
    · rw [GLCall_eq d x text file line ⟨q, calls, cout⟩ hq]
      simp only [hr]
  · intro e he hr
    have he0 : e ≠ 0 := he
    refine ⟨?_, ?_, infix_logEntry e text file line⟩
    · simp [GLLogCall, issue, GLClearError, glGetError, clearLoop_nonzero _ hq, hr, he0]
    · rw [GLCall_eq d x text file line ⟨q, calls, cout⟩ hq]
      simp only [hr, he0, ne_eq, not_false_eq_true, if_true]

/-- Witness of C5: with two unrelated codes pending, a call that raises nothing passes
silently, and a call that raises invalid-enum (1280) is logged once and traps. -/
theorem GLCall_outcome_witness :
    (∀ e ∈ [1282, 1281], e ≠ GL_NO_ERROR) ∧
    GLCall quietDriver (.glClear GL_COLOR_BUFFER_BIT) "glClear(GL_COLOR_BUFFER_BIT)".toList
        exampleFile 167 ⟨[1282, 1281], [], []⟩
      = .ok ⟨[], [.glClear GL_COLOR_BUFFER_BIT], []⟩ ∧
    GLCall apiDriver (.glDrawElements GL_TRIANGLES 6 GL_INT 0) drawCallText exampleFile 169
        ⟨[1282, 1281], [], []⟩
      = .error ⟨[], [.glDrawElements GL_TRIANGLES 6 GL_INT 0],
          "[OpenGL Error] (1280): glDrawElements(GL_TRIANGLES, 6, GL_INT, nullptr) Application.cpp:169\n".toList⟩ :=
  ⟨by decide,
    ((GLCall_outcome quietDriver (.glClear GL_COLOR_BUFFER_BIT)
      "glClear(GL_COLOR_BUFFER_BIT)".toList exampleFile 167 [1282, 1281] [] []
      (by decide)).2.1 rfl).2,
    ((GLCall_outcome apiDriver (.glDrawElements GL_TRIANGLES 6 GL_INT 0) drawCallText
      exampleFile 169 [1282, 1281] [] [] (by decide)).2.2 1280 (by decide) rfl).2.1⟩

/-- C6 fails on the code: with the two codes 1280 and 1281 pending, `GLLogCall` returns
after the first one; it writes one line, not two, and 1281 is still pending. -/
theorem GLLogCall_stops_after_first :
    GLLogCall drawCallText exampleFile 169 ⟨[1280, 1281], [], []⟩
      = (false, ⟨[1281], [], logEntry 1280 drawCallText exampleFile 169⟩) ∧
    (GLLogCall drawCallText exampleFile 169 ⟨[1280, 1281], [], []⟩).2.pending ≠ [] ∧
    (GLLogCall drawCallText exampleFile 169 ⟨[1280, 1281], [], []⟩).2.cout.count '\n' = 1 := by
  decide

/-! ## Claims on the shader compiler and linker -/

/-- C8 fails on the code: when the vertex stage fails to compile, `CreateShader` still
calls `glAttachShader(program, 0)`.  On a driver that follows the graphics API the call
raises `GL_INVALID_VALUE` and the wrapper traps right after it; on a driver that raises
nothing both failed stages are attached as 0 and the program is linked. -/
theorem CreateShader_attaches_zero :
    CreateShader apiDriver exampleFile "bad".toList "ok".toList ⟨[], [], []⟩
      = .error ⟨[], [.glCreateProgram,
          .glCreateShader GL_VERTEX_SHADER, .glShaderSource 2 "bad".toList, .glCompileShader 2,
          .glGetShaderiv 2 GL_COMPILE_STATUS, .glGetShaderiv 2 GL_INFO_LOG_LENGTH,
          .glGetShaderInfoLog 2 13, .glDeleteShader 2,
          .glCreateShader GL_FRAGMENT_SHADER, .glShaderSource 3 "ok".toList, .glCompileShader 3,
          .glGetShaderiv 3 GL_COMPILE_STATUS,
          .glAttachShader 1 0],
        ("Failed to compile vertex shader!\nsyntax error\n"
          ++ "[OpenGL Error] (1281): glAttachShader(program, vs) Application.cpp:91\n").toList⟩ ∧
    (∃ c1, CreateShader rejectingDriver exampleFile "bad".toList "ok".toList ⟨[], [], []⟩
        = .ok (7, c1) ∧
      c1.calls.count (.glAttachShader 7 0) = 2 ∧ GLCmd.glLinkProgram 7 ∈ c1.calls) := by
  refine ⟨by rfl, ⟨_, rfl, by decide, by decide⟩⟩

/-! ## Claim on the draw call -/

/-- C9 fails on the code: the draw call of the render loop has mode `GL_TRIANGLES`,
count 6 = the number of uploaded indices, and every index is below the vertex count 4,
but its type argument is `GL_INT`, which is not an accepted index type and is not the
uploaded element type `GL_UNSIGNED_INT`; on a driver that follows the graphics API the
wrapped call raises `GL_INVALID_ENUM`, which is logged, and the wrapper traps. -/
theorem drawCall_type_rejected :
    drawCall = .glDrawElements GL_TRIANGLES 6 GL_INT 0 ∧
    (6 : Int) = indeces.length ∧ vertexCount = 4 ∧ (∀ i ∈ indeces, i < vertexCount) ∧
    GL_INT ∉ drawElementsTypes ∧ GL_INT ≠ indecesElementType ∧
    indecesElementType ∈ drawElementsTypes ∧
    GLCall apiDriver drawCall drawCallText exampleFile 169 ⟨[], [], []⟩
      = .error ⟨[], [drawCall], logEntry GL_INVALID_ENUM drawCallText exampleFile 169⟩ ∧
    GLCall apiDriver (.glDrawElements GL_TRIANGLES 6 indecesElementType 0)
        "glDrawElements(GL_TRIANGLES, 6, GL_UNSIGNED_INT, nullptr)".toList exampleFile 169
        ⟨[], [], []⟩
      = .ok ⟨[], [.glDrawElements GL_TRIANGLES 6 GL_UNSIGNED_INT 0], []⟩ := by
  refine ⟨rfl, by decide, by decide, by decide, by decide, by decide, by decide, by rfl, by rfl⟩

end OpenGLApp
